import Mathlib

/-!
Shallow embedding of `src/misago/healthcheck/views.py` (Misago health-check
endpoints). The four Django view functions `healthcheck`, `readiness`,
`liveness` and `metrics` read from an ambient environment (the database
connection, the cache client, the optional `psutil` module and the Django
settings object); we make that environment an explicit record of probe
outcomes. A Python call that may raise is embedded as
`Except String α`: `.ok` is normal return, `.error e` is an exception
whose `str(e)` is `e`. Numeric percentages and byte counts are `ℚ`.
-/

namespace Healthcheck

instance {ε α : Type} [DecidableEq ε] [DecidableEq α] : DecidableEq (Except ε α) :=
  fun x y =>
    match x, y with
    | .error e, .error f => decidable_of_iff (e = f) (by simp)
    | .error _, .ok _ => .isFalse (by simp)
    | .ok _, .error _ => .isFalse (by simp)
    | .ok a, .ok b => decidable_of_iff (a = b) (by simp)

/-- Outcome of `psutil.virtual_memory()`: the fields the views read. -/
structure MemInfo where
  percent : ℚ
  available : ℚ
  deriving Repr, DecidableEq

/-- Outcome of `psutil.disk_usage('/')`: the fields the views read. -/
structure DiskInfo where
  percent : ℚ
  free : ℚ
  deriving Repr, DecidableEq

/-- The dict returned by `redis_conn.info()`, restricted to the three keys
the `metrics` view extracts with `.get(key, 0)`; a `none` field is a key
missing from the dict. -/
structure RedisInfo where
  connected_clients : Option ℤ
  used_memory : Option ℤ
  used_memory_peak : Option ℤ
  deriving Repr, DecidableEq

/-- Ambient environment of the views: the outcome each external call would
have if performed during this request. Globals in the Python module
(`connection`, `cache`, `psutil`, `settings`, `get_redis_connection`)
become fields here. -/
structure Env where
  /-- `cursor.execute("SELECT 1")` on the default connection. -/
  dbExecute : Except String Unit
  /-- `cursor.fetchone()` after the `SELECT 1` (only `healthcheck` calls it). -/
  dbFetchone : Except String Unit
  /-- `cache.set("health_check", "ok", 10)`. -/
  cacheSet : Except String Unit
  /-- `cache.get("health_check")`; `none` models Python `None` (missing key). -/
  cacheGetHealth : Except String (Option String)
  /-- `cache.get("ready_check")`; `none` models Python `None` (missing key). -/
  cacheGetReady : Except String (Option String)
  /-- `PSUTIL_AVAILABLE`: whether `import psutil` succeeded at module load. -/
  psutilAvailable : Bool
  /-- `psutil.disk_usage('/')`. -/
  diskUsage : Except String DiskInfo
  /-- `psutil.virtual_memory()`. -/
  virtualMemory : Except String MemInfo
  /-- `psutil.cpu_percent(interval=1)` (the `healthcheck` view's call). -/
  cpuPercentSlow : Except String ℚ
  /-- `psutil.cpu_percent(interval=0.1)` (the `metrics` view's call). -/
  cpuPercentFast : Except String ℚ
  /-- `getattr(settings, 'MISAGO_VERSION', 'unknown')`: `none` if unset. -/
  misagoVersion : Option String
  /-- The `pg_stat_activity` counters query in `metrics`: on success,
  `cursor.fetchone()` gives `none` (no row) or `(total, active)`. -/
  metricsDbQuery : Except String (Option (ℤ × ℤ))
  /-- `get_redis_connection("default")` followed by `redis_conn.info()`. -/
  redisInfo : Except String RedisInfo
  deriving Repr, DecidableEq

/-- The inbound HTTP request, restricted to what the views read:
`request.META.get('HTTP_X_REQUEST_ID', ...)`, i.e. the `X-Request-ID`
header (`none` when the header is absent). -/
structure Request where
  xRequestId : Option String
  deriving Repr, DecidableEq

/-- `request.META.get('HTTP_X_REQUEST_ID', '')`. -/
def requestId (req : Request) : String :=
  req.xRequestId.getD ""

/-! ### The `healthcheck` view (views.py lines 22-105) -/

/-- Lines 28-35: database check of `healthcheck`; `execute` then
`fetchone`, any exception gives `"error: " ++ str(e)`. -/
def db_status (env : Env) : String :=
  match env.dbExecute with
  | .error e => "error: " ++ e
  | .ok _ =>
    match env.dbFetchone with
    | .error e => "error: " ++ e
    | .ok _ => "ok"

/-- Lines 37-43: cache check of `healthcheck`; set a sentinel, read it
back, `"ok"` only when the read value equals `"ok"`. -/
def redis_status (env : Env) : String :=
  match env.cacheSet with
  | .error e => "error: " ++ e
  | .ok _ =>
    match env.cacheGetHealth with
    | .error e => "error: " ++ e
    | .ok result => if result = some "ok" then "ok" else "error"

/-- Lines 45-53: disk check of `healthcheck`. -/
def disk_status (env : Env) : String :=
  if env.psutilAvailable then
    match env.diskUsage with
    | .ok d => if d.percent < 90 then "ok" else "warning"
    | .error e => "error: " ++ e
  else "unknown (psutil not available)"

/-- Lines 55-63: memory check of `healthcheck`. -/
def memory_status (env : Env) : String :=
  if env.psutilAvailable then
    match env.virtualMemory with
    | .ok m => if m.percent < 90 then "ok" else "warning"
    | .error e => "error: " ++ e
  else "unknown (psutil not available)"

/-- Lines 65-70: the overall-status aggregation of `healthcheck`. -/
def overall_status (env : Env) : String :=
  if db_status env ≠ "ok" ∨ redis_status env ≠ "ok" then "error"
  else if disk_status env = "warning" ∨ memory_status env = "warning" then "warning"
  else "ok"

/-- The `system` object of the `healthcheck` response (lines 84-96):
`{}` when psutil is unavailable; the three numeric fields when the
`cpu_percent` call succeeds (with `memory_percent` / `disk_percent`
falling back to `0` when the corresponding local was never bound because
its probe raised); `{"error": str(e)}` when `cpu_percent` raises. -/
inductive SystemSection where
  | empty
  | values (cpu_percent memory_percent disk_percent : ℚ)
  | errorMsg (e : String)
  deriving Repr, DecidableEq

/-- Lines 84-96: build the `system` object of the `healthcheck` response. -/
def system_section (env : Env) : SystemSection :=
  if env.psutilAvailable then
    match env.cpuPercentSlow with
    | .ok cpu =>
      .values cpu
        (match env.virtualMemory with | .ok m => m.percent | .error _ => 0)
        (match env.diskUsage with | .ok d => d.percent | .error _ => 0)
    | .error e => .errorMsg e
  else .empty

/-- The JSON body plus HTTP status of a `healthcheck` response
(lines 73-105), with the `checks` object flattened into four fields. -/
structure HealthResponse where
  status : String
  timestamp : String
  service : String
  version : String
  checks_database : String
  checks_redis : String
  checks_disk : String
  checks_memory : String
  system : SystemSection
  httpStatus : ℕ
  deriving Repr, DecidableEq

/-- The `healthcheck` view, lines 22-105. -/
def healthcheck (env : Env) (req : Request) : HealthResponse :=
  { status := overall_status env
    timestamp := requestId req
    service := "misago"
    version := env.misagoVersion.getD "unknown"
    checks_database := db_status env
    checks_redis := redis_status env
    checks_disk := disk_status env
    checks_memory := memory_status env
    system := system_section env
    httpStatus :=
      if overall_status env = "error" then 503
      else if overall_status env = "warning" then 200
      else 200 }

/-! ### The `readiness` view (lines 108-131) -/

/-- Body plus HTTP status of a `readiness` response; `error` is `none`
on the success path (the key is absent from the success JSON). -/
structure ReadinessResponse where
  status : String
  error : Option String
  timestamp : String
  httpStatus : ℕ
  deriving Repr, DecidableEq

/-- The `readiness` view, lines 108-131: `execute("SELECT 1")`, then
`cache.get("ready_check")` (value discarded); any exception is caught and
answered with `not_ready`/503. -/
def readiness (env : Env) (req : Request) : ReadinessResponse :=
  match env.dbExecute with
  | .error e =>
    { status := "not_ready", error := some e, timestamp := requestId req, httpStatus := 503 }
  | .ok _ =>
    match env.cacheGetReady with
    | .error e =>
      { status := "not_ready", error := some e, timestamp := requestId req, httpStatus := 503 }
    | .ok _ =>
      { status := "ready", error := none, timestamp := requestId req, httpStatus := 200 }

/-! ### The `liveness` view (lines 134-144) -/

/-- Body plus HTTP status of a `liveness` response. -/
structure LivenessResponse where
  status : String
  timestamp : String
  httpStatus : ℕ
  deriving Repr, DecidableEq

/-- The `liveness` view, lines 134-144. It takes the ambient environment
like every view but its body reads only the request. -/
def liveness (_env : Env) (req : Request) : LivenessResponse :=
  { status := "alive", timestamp := requestId req, httpStatus := 200 }

/-! ### The `metrics` view (lines 147-217) -/

/-- `round(x, 2)` on the megabyte/gigabyte conversions. -/
def round2 (q : ℚ) : ℚ := (round (q * 100) : ℤ) / 100

/-- The `metrics.system` object of a successful `metrics` response
(lines 199-209): the five numeric fields when psutil is available,
`{"error": "psutil not available"}` otherwise. -/
inductive MetricsSystem where
  | values (cpu_usage_percent memory_usage_percent memory_available_gb
            disk_usage_percent disk_free_gb : ℚ)
  | unavailable
  deriving Repr, DecidableEq

/-- The JSON body of a successful `metrics` response (lines 183-197). -/
structure MetricsBody where
  system : MetricsSystem
  database_total_connections : ℤ
  database_active_connections : ℤ
  redis_connected_clients : ℤ
  redis_used_memory_mb : ℚ
  redis_used_memory_peak_mb : ℚ
  deriving Repr, DecidableEq

/-- A `metrics` response: the 200 success body, or the 500 body produced
by the outer `except` (lines 213-217). -/
inductive MetricsResponse where
  | success (body : MetricsBody) (timestamp : String)
  | failure (error : String) (timestamp : String)
  deriving Repr, DecidableEq

/-- HTTP status of a `metrics` response. -/
def MetricsResponse.httpStatus : MetricsResponse → ℕ
  | .success _ _ => 200
  | .failure _ _ => 500

/-- Timestamp field of a `metrics` response (present in both branches). -/
def MetricsResponse.timestamp : MetricsResponse → String
  | .success _ ts => ts
  | .failure _ ts => ts

/-- Lines 154-162: the psutil sampling of `metrics`; inside the outer
`try` only, so an exception it raises reaches the 500 handler. -/
def metrics_system (env : Env) : Except String MetricsSystem :=
  if env.psutilAvailable then
    match env.cpuPercentFast with
    | .error e => .error e
    | .ok cpu =>
      match env.virtualMemory with
      | .error e => .error e
      | .ok mem =>
        match env.diskUsage with
        | .error e => .error e
        | .ok disk =>
          .ok (.values cpu mem.percent (round2 (mem.available / 1024 ^ 3))
            disk.percent (round2 (disk.free / 1024 ^ 3)))
  else .ok .unavailable

/-- The `metrics` view, lines 147-217. The psutil sampling and the
`pg_stat_activity` query sit inside the outer `try` only, so their
exceptions reach the 500 handler (the first one raised wins); the redis
`info` call has its own inner `try` that degrades to an empty dict. -/
def metrics (env : Env) (req : Request) : MetricsResponse :=
  match metrics_system env with
  | .error e => .failure e (requestId req)
  | .ok sys =>
    match env.metricsDbQuery with
    | .error e => .failure e (requestId req)
    | .ok dbStats =>
      let rinfo :=
        match env.redisInfo with
        | .ok i => i
        | .error _ => ⟨none, none, none⟩
      .success
        { system := sys
          database_total_connections := (dbStats.map Prod.fst).getD 0
          database_active_connections := (dbStats.map Prod.snd).getD 0
          redis_connected_clients := rinfo.connected_clients.getD 0
          redis_used_memory_mb := round2 ((rinfo.used_memory.getD 0 : ℚ) / (1024 * 1024))
          redis_used_memory_peak_mb := round2 ((rinfo.used_memory_peak.getD 0 : ℚ) / (1024 * 1024)) }
        (requestId req)

/-! ### Helper definitions and lemmas -/

/-- `true` iff the embedded call raised an exception. -/
def raised {α : Type} : Except String α → Bool
  | .error _ => true
  | .ok _ => false

/-- A status string built from an exception message is never `"ok"`. -/
theorem error_msg_ne_ok (e : String) : "error: " ++ e ≠ "ok" := by
  intro h
  have hl : ("error: " ++ e).length = ("ok" : String).length := congrArg String.length h
  rw [String.length_append] at hl
  have h7 : ("error: " : String).length = 7 := rfl
  have h2 : ("ok" : String).length = 2 := rfl
  omega

/-- A status string built from an exception message is never `"warning"`. -/
theorem error_msg_ne_warning (e : String) : "error: " ++ e ≠ "warning" := by
  intro h
  have hl : ("error: " : String).length + e.length = ("warning" : String).length := by
    rw [← String.length_append, h]
  have h7 : ("error: " : String).length = 7 := rfl
  have hw : ("warning" : String).length = 7 := rfl
  have he : e.length = 0 := by omega
  have hnil : e = "" := by
    cases e with
    | mk data =>
      cases data with
      | nil => rfl
      | cons a as => simp [String.length] at he
  rw [hnil] at h
  exact absurd h (by decide)

/-- An environment where every external call succeeds: database reachable,
cache round-trips the sentinel, psutil present with healthy readings. -/
def envOk : Env :=
  { dbExecute := .ok (), dbFetchone := .ok (), cacheSet := .ok ()
    cacheGetHealth := .ok (some "ok"), cacheGetReady := .ok (some "1")
    psutilAvailable := true, diskUsage := .ok ⟨50, 100⟩
    virtualMemory := .ok ⟨40, 8⟩, cpuPercentSlow := .ok 10, cpuPercentFast := .ok 12
    misagoVersion := none, metricsDbQuery := .ok (some (5, 2))
    redisInfo := .ok ⟨some 3, some 1048576, some 2097152⟩ }

/-- `envOk` with the database `SELECT 1` raising. -/
def envDbDown : Env := { envOk with dbExecute := .error "connection refused" }

/-- `envOk` with the disk probe raising (psutil present). -/
def envDiskErr : Env := { envOk with diskUsage := .error "io error" }

/-- `envOk` with the memory probe raising (psutil present). -/
def envMemErr : Env := { envOk with virtualMemory := .error "boom" }

/-- `envOk` with the `pg_stat_activity` counter query raising. -/
def envDbStatsDown : Env := { envOk with metricsDbQuery := .error "db down" }

/-- `envOk` with the redis `info` call raising. -/
def envInfoDown : Env := { envOk with redisInfo := .error "info failed" }

/-- `envOk` with a cache that accepts reads and writes but stores nothing:
every `get` returns `None`. -/
def envEmptyCache : Env :=
  { envOk with cacheGetHealth := .ok none, cacheGetReady := .ok none }

/-- Replace every resource-probe field of an environment (the psutil flag,
the disk, memory and both cpu probes), leaving the dependency probes
untouched. -/
def withResources (env : Env) (b : Bool) (d : Except String DiskInfo)
    (m : Except String MemInfo) (c c' : Except String ℚ) : Env :=
  { env with
    psutilAvailable := b
    diskUsage := d
    virtualMemory := m
    cpuPercentSlow := c
    cpuPercentFast := c' }

/-! ### Claim theorems -/

/-- Claim C1, counterexample: with database and cache healthy but the disk
probe raising (psutil present), the disk check's status is an error string,
yet the health endpoint's overall status is `"ok"`, not `"error"`: the
aggregation at views.py lines 65-70 never inspects disk/memory errors. -/
theorem c1_counterexample :
    (healthcheck envDiskErr ⟨none⟩).checks_disk = "error: io error"
    ∧ (healthcheck envDiskErr ⟨none⟩).status = "ok"
    ∧ (healthcheck envDiskErr ⟨none⟩).status ≠ "error" :=
  ⟨by decide, by decide, by decide⟩

/-- Claim C1 (amended): the overall status is `"error"` exactly when the
database or cache/redis check reports something other than `"ok"`; in
particular an exception in the database probe or in the cache sentinel
write forces overall `"error"`. Errors of the disk or memory check do not
enter the aggregation (the right-hand side of the iff does not mention
them), so they cannot make the overall status `"error"`. -/
theorem c1_amended_overall_error_iff (env : Env) :
    (overall_status env = "error" ↔ db_status env ≠ "ok" ∨ redis_status env ≠ "ok")
    ∧ (∀ e, env.dbExecute = Except.error e → overall_status env = "error")
    ∧ (∀ e, env.cacheSet = Except.error e → overall_status env = "error") := by
  have hiff : overall_status env = "error" ↔
      db_status env ≠ "ok" ∨ redis_status env ≠ "ok" := by
    unfold overall_status
    by_cases h : db_status env ≠ "ok" ∨ redis_status env ≠ "ok"
    · simp [h]
    · simp only [h, if_false, iff_false]
      split <;> simp [h]
  refine ⟨hiff, ?_, ?_⟩
  · intro e he
    apply hiff.mpr
    left
    unfold db_status
    rw [he]
    exact error_msg_ne_ok e
  · intro e he
    apply hiff.mpr
    right
    unfold redis_status
    rw [he]
    exact error_msg_ne_ok e

/-- Witness for the amended C1 at a concrete failing database. -/
theorem c1_amended_witness : overall_status envDbDown = "error" :=
  (c1_amended_overall_error_iff envDbDown).2.1 "connection refused" rfl

/-- Claim C2: with no check in error (database ok, cache sentinel ok, and
neither resource probe raising while psutil is present), the overall
status is `"warning"` iff the disk or memory check is `"warning"`, and
`"ok"` otherwise; `unknown` disk/memory results (psutil absent) do not
count as warnings, yet still appear verbatim in the `checks` section of
the report. -/
theorem c2_no_error_aggregation (env : Env) (req : Request)
    (hdb : db_status env = "ok") (hredis : redis_status env = "ok")
    (hdisk : ¬(env.psutilAvailable = true ∧ raised env.diskUsage = true))
    (hmem : ¬(env.psutilAvailable = true ∧ raised env.virtualMemory = true)) :
    ((healthcheck env req).status =
      if disk_status env = "warning" ∨ memory_status env = "warning" then "warning" else "ok")
    ∧ (env.psutilAvailable = false →
        (healthcheck env req).checks_disk = "unknown (psutil not available)"
        ∧ (healthcheck env req).checks_memory = "unknown (psutil not available)"
        ∧ (healthcheck env req).status = "ok") := by
  constructor
  · show overall_status env = _
    unfold overall_status
    simp [hdb, hredis]
  · intro hp
    refine ⟨?_, ?_, ?_⟩
    · show disk_status env = _
      simp [disk_status, hp]
    · show memory_status env = _
      simp [memory_status, hp]
    · show overall_status env = "ok"
      unfold overall_status disk_status memory_status
      simp [hdb, hredis, hp]

/-- Witness for C2 at a healthy concrete environment. -/
theorem c2_witness :
    (healthcheck envOk ⟨none⟩).status =
      if disk_status envOk = "warning" ∨ memory_status envOk = "warning"
      then "warning" else "ok" :=
  (c2_no_error_aggregation envOk ⟨none⟩ rfl rfl (by decide) (by decide)).1

/-- Claim C3: the health endpoint answers HTTP 503 exactly when the overall
status is `"error"`, and 200 in every other case, `"warning"` included. -/
theorem c3_http_status (env : Env) (req : Request) :
    ((healthcheck env req).httpStatus = 503 ↔ (healthcheck env req).status = "error")
    ∧ ((healthcheck env req).status ≠ "error" → (healthcheck env req).httpStatus = 200)
    ∧ ((healthcheck env req).status = "warning" → (healthcheck env req).httpStatus = 200) := by
  have hs : (healthcheck env req).status = overall_status env := rfl
  have hh : (healthcheck env req).httpStatus =
      if overall_status env = "error" then 503
      else if overall_status env = "warning" then 200 else 200 := rfl
  rw [hs, hh]
  by_cases h : overall_status env = "error" <;>
    by_cases h2 : overall_status env = "warning" <;>
    simp [h, h2]

/-- Witness for C3: a database outage yields HTTP 503. -/
theorem c3_witness : (healthcheck envDbDown ⟨none⟩).httpStatus = 503 :=
  (c3_http_status envDbDown ⟨none⟩).1.mpr (by decide)

/-- Claim C4: the liveness endpoint's response does not depend on the
environment at all — two arbitrary environments (e.g. one healthy, one
whose database probe raises) give identical responses — and the response
is always HTTP 200 with status `"alive"`. -/
theorem c4_liveness_independent (env env' : Env) (req : Request) :
    liveness env req = liveness env' req
    ∧ (liveness env req).httpStatus = 200
    ∧ (liveness env req).status = "alive" :=
  ⟨rfl, rfl, rfl⟩

/-- Claim C5: readiness runs only the dependency checks — its response is
invariant under every resource-probe field — returns `"ready"`/200 when
the database query and the cache read both succeed, and `"not_ready"`/503
with a non-empty error field when the database probe raises with a
non-empty message. -/
theorem c5_readiness (env : Env) (req : Request) :
    (∀ b d m c c', readiness (withResources env b d m c c') req = readiness env req)
    ∧ (env.dbExecute = Except.ok () → (∃ v, env.cacheGetReady = Except.ok v) →
        readiness env req = ⟨"ready", none, requestId req, 200⟩)
    ∧ (∀ e, env.dbExecute = Except.error e → e ≠ "" →
        (readiness env req).httpStatus = 503
        ∧ (readiness env req).status = "not_ready"
        ∧ ∃ msg, (readiness env req).error = some msg ∧ msg ≠ "") := by
  refine ⟨fun b d m c c' => rfl, ?_, ?_⟩
  · rintro h ⟨v, hv⟩
    unfold readiness
    rw [h, hv]
  · intro e he hne
    unfold readiness
    rw [he]
    exact ⟨rfl, rfl, e, rfl, hne⟩

/-- Witness for C5: concrete ready and not-ready responses. -/
theorem c5_witness :
    readiness envOk ⟨some "rid"⟩ = ⟨"ready", none, "rid", 200⟩
    ∧ (readiness envDbDown ⟨none⟩).httpStatus = 503 :=
  ⟨(c5_readiness envOk ⟨some "rid"⟩).2.1 rfl ⟨some "1", rfl⟩,
   ((c5_readiness envDbDown ⟨none⟩).2.2 "connection refused" rfl (by decide)).1⟩

/-- The readiness response carries the request id on both of its paths. -/
theorem readiness_timestamp (env : Env) (req : Request) :
    (readiness env req).timestamp = requestId req := by
  unfold readiness
  split
  · rfl
  · split <;> rfl

/-- The metrics response carries the request id on both of its paths. -/
theorem metrics_timestamp_eq (env : Env) (req : Request) :
    (metrics env req).timestamp = requestId req := by
  unfold metrics
  split
  · rfl
  · split <;> rfl

/-- Claim C8: every handler copies the inbound `X-Request-ID` header value
verbatim into its response's `timestamp` field, on success and failure
paths alike, and an absent header yields the empty string. -/
theorem c8_request_id_roundtrip (env : Env) (req : Request) :
    (∀ s, req.xRequestId = some s →
      (healthcheck env req).timestamp = s ∧ (readiness env req).timestamp = s
      ∧ (liveness env req).timestamp = s ∧ (metrics env req).timestamp = s)
    ∧ (req.xRequestId = none →
      (healthcheck env req).timestamp = "" ∧ (readiness env req).timestamp = ""
      ∧ (liveness env req).timestamp = "" ∧ (metrics env req).timestamp = "") := by
  have hsome : ∀ s, req.xRequestId = some s → requestId req = s := by
    intro s hs
    simp [requestId, hs]
  have hnone : req.xRequestId = none → requestId req = "" := by
    intro hn
    simp [requestId, hn]
  constructor
  · intro s hs
    refine ⟨hsome s hs, ?_, hsome s hs, ?_⟩
    · rw [readiness_timestamp]
      exact hsome s hs
    · rw [metrics_timestamp_eq]
      exact hsome s hs
  · intro hn
    refine ⟨hnone hn, ?_, hnone hn, ?_⟩
    · rw [readiness_timestamp]
      exact hnone hn
    · rw [metrics_timestamp_eq]
      exact hnone hn

/-- Witness for C8 at concrete requests. -/
theorem c8_witness :
    (healthcheck envOk ⟨some "abc"⟩).timestamp = "abc"
    ∧ (metrics envOk ⟨none⟩).timestamp = "" :=
  ⟨((c8_request_id_roundtrip envOk ⟨some "abc"⟩).1 "abc" rfl).1,
   ((c8_request_id_roundtrip envOk ⟨none⟩).2 rfl).2.2.2⟩

/-- Claim C9: the cache check reports `"ok"` exactly when the sentinel
write succeeded and the read-back value equals the written `"ok"`; any
mismatch (including a missing key) or exception yields an error status
string, so no exception escapes the check. -/
theorem c9_cache_check (env : Env) :
    (redis_status env = "ok" ↔
      env.cacheSet = Except.ok () ∧ env.cacheGetHealth = Except.ok (some "ok"))
    ∧ (redis_status env ≠ "ok" →
      redis_status env = "error" ∨ ∃ e, redis_status env = "error: " ++ e) := by
  unfold redis_status
  cases hs : env.cacheSet with
  | error e =>
    constructor
    · simp [error_msg_ne_ok e]
    · intro _
      exact Or.inr ⟨e, rfl⟩
  | ok u =>
    cases u
    cases hg : env.cacheGetHealth with
    | error e =>
      constructor
      · simp [error_msg_ne_ok e]
      · intro _
        exact Or.inr ⟨e, rfl⟩
    | ok r =>
      by_cases hr : r = some "ok"
      · subst hr
        simp
      · constructor
        · simp [hr]
        · intro _
          exact Or.inl (by simp [hr])

/-- Witness for C9: a healthy cache round-trip reports `"ok"`. -/
theorem c9_witness : redis_status envOk = "ok" :=
  (c9_cache_check envOk).1.mpr ⟨rfl, rfl⟩

/-- Claim C10: readiness's cache probe is a bare read — its response is
invariant under the sentinel-write outcome and the health-key read value —
and it accepts every successfully returned value, a missing key (`None`)
included; hence a cache that accepts reads but stores nothing passes
readiness with 200 while the same environment fails the health endpoint's
write-read check with 503. -/
theorem c10_readiness_read_only (env : Env) (req : Request) :
    (∀ s g, readiness { env with cacheSet := s, cacheGetHealth := g } req
          = readiness env req)
    ∧ (env.dbExecute = Except.ok () → ∀ v, env.cacheGetReady = Except.ok v →
        readiness env req = ⟨"ready", none, requestId req, 200⟩)
    ∧ (env.dbExecute = Except.ok () → env.dbFetchone = Except.ok () →
        env.cacheSet = Except.ok () → env.cacheGetHealth = Except.ok none →
        env.cacheGetReady = Except.ok none →
        (readiness env req).httpStatus = 200
        ∧ redis_status env = "error"
        ∧ (healthcheck env req).httpStatus = 503) := by
  refine ⟨fun s g => rfl, ?_, ?_⟩
  · intro h v hv
    unfold readiness
    rw [h, hv]
  · intro h1 h2 h3 h4 h5
    have hredis : redis_status env = "error" := by
      unfold redis_status
      rw [h3, h4]
      simp
    have hov : overall_status env = "error" := by
      unfold overall_status
      rw [hredis]
      simp
    have hhttp : (healthcheck env req).httpStatus =
        if overall_status env = "error" then 503
        else if overall_status env = "warning" then 200 else 200 := rfl
    refine ⟨?_, hredis, ?_⟩
    · unfold readiness
      rw [h1, h5]
    · rw [hhttp, hov]
      simp

/-- Witness for C10: the empty cache passes readiness and fails health. -/
theorem c10_witness :
    (readiness envEmptyCache ⟨none⟩).httpStatus = 200
    ∧ redis_status envEmptyCache = "error"
    ∧ (healthcheck envEmptyCache ⟨none⟩).httpStatus = 503 :=
  (c10_readiness_read_only envEmptyCache ⟨none⟩).2.2 rfl rfl rfl rfl rfl

/-- Claim C6, counterexample: a failure of the relational-store counter
query does not degrade to zeros — it aborts the whole request through the
outer `except` with HTTP 500, against the claimed graceful degradation. -/
theorem c6_counterexample :
    metrics envDbStatsDown ⟨none⟩ = MetricsResponse.failure "db down" ""
    ∧ (metrics envDbStatsDown ⟨none⟩).httpStatus = 500 :=
  ⟨by decide, by decide⟩

/-- Claim C6 (amended): only the cache `info` fetch degrades gracefully —
when it raises while the rest of the handler succeeds, every redis counter
is zero and the response is still HTTP 200; a failure of the relational
counter query instead aborts the handler onto the 500 path. -/
theorem c6_amended_graceful_redis_only (env : Env) (req : Request) :
    (∀ e row, env.redisInfo = Except.error e → env.metricsDbQuery = Except.ok row →
      ∀ sys, metrics_system env = Except.ok sys →
      (metrics env req).httpStatus = 200
      ∧ ∃ b, metrics env req = MetricsResponse.success b (requestId req)
          ∧ b.redis_connected_clients = 0
          ∧ b.redis_used_memory_mb = 0
          ∧ b.redis_used_memory_peak_mb = 0)
    ∧ (∀ e sys, env.metricsDbQuery = Except.error e →
        metrics_system env = Except.ok sys →
        metrics env req = MetricsResponse.failure e (requestId req)
        ∧ (metrics env req).httpStatus = 500) := by
  constructor
  · intro e row he hrow sys hsys
    unfold metrics
    rw [hsys, hrow, he]
    refine ⟨rfl, _, rfl, rfl, ?_, ?_⟩ <;> simp [round2]
  · intro e sys he hsys
    unfold metrics
    rw [hsys, he]
    exact ⟨rfl, rfl⟩

/-- Witness for the amended C6: a concrete redis-info failure answers 200,
a concrete counter-query failure answers through the 500 path. -/
theorem c6_witness :
    (metrics envInfoDown ⟨none⟩).httpStatus = 200
    ∧ metrics envDbStatsDown ⟨none⟩ = MetricsResponse.failure "db down" "" :=
  ⟨((c6_amended_graceful_redis_only envInfoDown ⟨none⟩).1
      "info failed" (some (5, 2)) rfl rfl _ rfl).1,
   ((c6_amended_graceful_redis_only envDbStatsDown ⟨none⟩).2 "db down" _ rfl rfl).1⟩

/-- Claim C7, counterexample: with psutil present, the memory probe
raising and cpu/disk succeeding, the health endpoint reports the memory
check as an error yet publishes `memory_percent` as the number `0` — an
unmeasured value conflated with a measured zero instead of being absent. -/
theorem c7_counterexample :
    (healthcheck envMemErr ⟨none⟩).checks_memory = "error: boom"
    ∧ (healthcheck envMemErr ⟨none⟩).system = SystemSection.values 10 0 50 :=
  ⟨by decide, by decide⟩

/-- Claim C7 (amended): in `metrics` the numeric system fields are present
exactly on probe success (psutil absent gives the explicit `unavailable`
marker; a raising probe aborts onto the 500 path so no numbers appear),
and in `healthcheck` the system object is absent exactly when psutil is
unavailable; but when psutil is present and the cpu probe succeeds, a
raising memory (or disk) probe makes `healthcheck` publish
`memory_percent` (or `disk_percent`) as the number `0` instead of
omitting it. -/
theorem c7_amended_system_metrics (env : Env) (req : Request) :
    ((healthcheck env req).system = SystemSection.empty ↔ env.psutilAvailable = false)
    ∧ (∀ e c d, env.psutilAvailable = true → env.cpuPercentSlow = Except.ok c →
        env.virtualMemory = Except.error e → env.diskUsage = Except.ok d →
        (healthcheck env req).system = SystemSection.values c 0 d.percent)
    ∧ (env.psutilAvailable = false → ∀ row, env.metricsDbQuery = Except.ok row →
        ∃ b, metrics env req = MetricsResponse.success b (requestId req)
          ∧ b.system = MetricsSystem.unavailable)
    ∧ (∀ c m d row, env.psutilAvailable = true →
        env.cpuPercentFast = Except.ok c → env.virtualMemory = Except.ok m →
        env.diskUsage = Except.ok d → env.metricsDbQuery = Except.ok row →
        ∃ b, metrics env req = MetricsResponse.success b (requestId req)
          ∧ b.system = MetricsSystem.values c m.percent
              (round2 (m.available / 1024 ^ 3)) d.percent
              (round2 (d.free / 1024 ^ 3))) := by
  refine ⟨?_, ?_, ?_, ?_⟩
  · show system_section env = SystemSection.empty ↔ _
    cases hp : env.psutilAvailable
    · simp [system_section, hp]
    · simp only [system_section, hp, if_true]
      cases env.cpuPercentSlow <;> simp
  · intro e c d hp hc hm hd
    show system_section env = _
    simp [system_section, hp, hc, hm, hd]
  · intro hp row hrow
    have hsys : metrics_system env = Except.ok MetricsSystem.unavailable := by
      simp [metrics_system, hp]
    unfold metrics
    rw [hsys, hrow]
    exact ⟨_, rfl, rfl⟩
  · intro c m d row hp hc hm hd hrow
    have hsys : metrics_system env = Except.ok (MetricsSystem.values c m.percent
        (round2 (m.available / 1024 ^ 3)) d.percent (round2 (d.free / 1024 ^ 3))) := by
      simp [metrics_system, hp, hc, hm, hd]
    unfold metrics
    rw [hsys, hrow]
    exact ⟨_, rfl, rfl⟩

/-- Witness for the amended C7: the psutil-present environment with a
failing memory probe publishes a zero `memory_percent` in healthcheck. -/
theorem c7_witness :
    (healthcheck envMemErr ⟨none⟩).system = SystemSection.values 10 0 50 :=
  (c7_amended_system_metrics envMemErr ⟨none⟩).2.1 "boom" 10 ⟨50, 100⟩ rfl rfl rfl rfl

end Healthcheck
